import Mathlib

/-!
Verification development for the grading-automation harness
(`grade_pa3.py` / `grade_pa4.py`).

The two drivers are near-duplicates; the embedding below follows
`grade_pa3.py` line by line (the `pa4` twin differs only in the literal
strings `pa4.py`/`pa4sol` and in one logging branch, which is out of scope).

Modelling conventions:
* Python `json` values are the inductive `Json` below; JSON numbers are
  modelled as `Int` (no test in the repository emits fractional numbers
  through the protocol).
* `json.loads` of the child's stdout is a library call; the supervisor
  embedding receives its outcome as an explicit `Option Json` argument
  (`none` models `json.JSONDecodeError`), exactly the two cases the source
  distinguishes at lines 299-302.
* Python `str.strip` is modelled by `pyStrip` and slicing `s[:500]` by
  `strTake` (structural recursions over the character list, so that every
  definition evaluates inside the kernel).
* Fallible Python statements become `Except PyErr`; an uncaught exception in
  the supervising loop is `Except.error`, matching the fact that only
  `subprocess.TimeoutExpired` and `json.JSONDecodeError` are caught there.
* Untrusted code the runner executes in-process (module top level,
  `TestCase()`) gets a three-way outcome (`PyOutcome`): a value, an
  `Exception` caught by the runner's handlers, or an escaping
  `BaseException` (e.g. `SystemExit`) that kills the runner process; its own
  stdout writes are recorded as raw channel events beside the runner's
  prints.
-/

namespace Grading

/-- Python/JSON values as produced by `json.loads` and consumed via
`dict.get` in `grade_pa3.py` lines 299-306. -/
inductive Json where
  | null : Json
  | bool (b : Bool) : Json
  | num (n : Int) : Json
  | str (s : String) : Json
  | arr (xs : List Json) : Json
  | obj (kvs : List (String × Json)) : Json

/-- The uncaught Python exceptions the supervising loop can actually raise
on the modelled paths: `AttributeError` from `data.get` when `json.loads`
returned a non-dict (line 304), and `TypeError` from `full_message += ...`
when the parsed `message` field is neither a string nor a list (lines
309-315; Python list += str extends the list instead of raising). -/
inductive PyErr where
  | attributeError : PyErr
  | typeError : PyErr
deriving DecidableEq

/-- Python truthiness (`bool(x)`) on JSON-shaped values. -/
def pyTruthy : Json → Bool
  | .null => false
  | .bool b => b
  | .num n => n != 0
  | .str s => s != ""
  | .arr xs => !xs.isEmpty
  | .obj kvs => !kvs.isEmpty

/-- Python `str(x)` / f-string rendering of a JSON-shaped value.  Strings,
booleans, integers and `None` are rendered exactly as Python does; the
container cases are placeholders (no claim depends on rendering a container,
the protocol fields used in messages are strings or absent). -/
def pyStr : Json → String
  | .str s => s
  | .bool b => if b then "True" else "False"
  | .num n => toString n
  | .null => "None"
  | .arr _ => "<list>"
  | .obj _ => "<dict>"

/-- Python `data.get(key, default)` as executed at `grade_pa3.py` lines
304-306: succeeds on a dict (first binding of the key, else the default) and
raises `AttributeError` on any non-dict value, e.g. when `json.loads`
returned an int or a list. -/
def dictGet (data : Json) (key : String) (dflt : Json) : Except PyErr Json :=
  match data with
  | .obj kvs => Except.ok ((kvs.lookup key).getD dflt)
  | _ => Except.error PyErr.attributeError

/-- The exit-code annotation appended at line 313:
`f"\n\n(subprocess exit code: {proc.returncode})"`. -/
def exitPiece (ec : Int) : String :=
  "\n\n(subprocess exit code: " ++ toString ec ++ ")"

/-- One ResultRecord of the spec, as the supervising loop materialises it:
the `ok`/message pair written to the results row plus which supervisory
branch produced it (`timedOut` is true exactly on the
`subprocess.TimeoutExpired` branch, lines 330-334). -/
structure ResultRecord where
  ok : Bool
  message : String
  timedOut : Bool
deriving DecidableEq

/-- Drop leading and trailing whitespace from a character list. -/
def stripChars (l : List Char) : List Char :=
  ((l.dropWhile Char.isWhitespace).reverse.dropWhile Char.isWhitespace).reverse

/-- Python `str.strip()` (the submissions are ASCII text; the extra Unicode
space classes Python also strips never occur here). -/
def pyStrip (s : String) : String := String.mk (stripChars s.data)

/-- Python slicing `s[:n]`: the first `n` characters. -/
def strTake (s : String) (n : Nat) : String := String.mk (s.data.take n)

/-- Lines 298-302 of `grade_pa3.py`: the value bound to `data`.  Empty
stripped stdout yields the empty dict; a `json.JSONDecodeError` (`parsed =
none`) yields the synthetic dict carrying 500-character slices of both
channels; otherwise the parsed value itself. -/
def childData (out err : String) (parsed : Option Json) : Json :=
  if out = "" then .obj []
  else
    match parsed with
    | some v => v
    | none =>
      .obj [("ok", .bool false), ("message", .str "Invalid JSON output"),
            ("error", .str ("STDOUT: " ++ strTake out 500 ++ "\nSTDERR: " ++ strTake err 500))]

/-- Lines 304-316 of `grade_pa3.py`: read `ok` / `message` / `error` from
`data` with `dict.get` (which raises `AttributeError` on a non-dict, in
source order: the `ok` read raises first), then build `full_message` by
appending the `ERROR`, exit-code, and `STDERR` suffixes in that order.
`full_message += ...` raises `TypeError` when `message` parsed to a
non-string and at least one suffix is appended; with no suffix the
non-string reaches `csv.writer`, which stringifies it. -/
def processData (data : Json) (err : String) (ec : Int) : Except PyErr ResultRecord :=
  match dictGet data "ok" (.bool false) with
  | .error e => Except.error e
  | .ok okJ =>
    match dictGet data "message" (.str "") with
    | .error e => Except.error e
    | .ok messageJ =>
      match dictGet data "error" (.str "") with
      | .error e => Except.error e
      | .ok errorJ =>
        let appendix : String :=
          (if pyTruthy errorJ = true then "\n\nERROR:\n" ++ pyStr errorJ else "") ++
          (if ec ≠ 0 then exitPiece ec else "") ++
          (if err ≠ "" ∧ pyTruthy errorJ = false then "\n\nSTDERR:\n" ++ err else "")
        match messageJ with
        | .str m => Except.ok { ok := pyTruthy okJ, message := m ++ appendix, timedOut := false }
        | .arr xs =>
          -- Python list += str extends the list with the string's characters
          -- instead of raising, so a list-valued message flows through to the
          -- row; str() of the resulting list is blurred by the container
          -- placeholder rendering, which no claim inspects.
          Except.ok { ok := pyTruthy okJ, message := pyStr (.arr xs), timedOut := false }
        | other =>
          if pyTruthy errorJ = true ∨ ec ≠ 0 ∨ (err ≠ "" ∧ pyTruthy errorJ = false) then
            Except.error PyErr.typeError
          else Except.ok { ok := pyTruthy okJ, message := pyStr other, timedOut := false }

/-- Lines 294-316 of `grade_pa3.py`: interpret the completed child's stripped
stdout `out`, stripped stderr `err`, the outcome `parsed` of `json.loads out`
(`none` = `json.JSONDecodeError`), and the exit code `ec`. -/
def processChild (out err : String) (parsed : Option Json) (ec : Int) :
    Except PyErr ResultRecord :=
  processData (childData out err parsed) err ec

/-- Observable behaviour of one child process from the supervisor's side:
either `subprocess.run` raised `TimeoutExpired`, or the child completed with
raw stdout/stderr text, the `json.loads` outcome for the stripped stdout,
and an exit code. -/
inductive ChildBehaviour where
  | timeout : ChildBehaviour
  | done (stdout stderr : String) (parsed : Option Json) (exitCode : Int) : ChildBehaviour

/-- The supervisor body for one ExecutionRequest (`grade_pa3.py` lines
287-334): the `try`/`except subprocess.TimeoutExpired` around one
`subprocess.run`.  `timeoutStr` is the rendered `args.timeout` float as it
appears in the f-string (e.g. `"20.0"`). -/
def runOne (cb : ChildBehaviour) (timeoutStr : String) : Except PyErr ResultRecord :=
  match cb with
  | .timeout =>
    Except.ok { ok := false,
                message := "Test timed out after " ++ timeoutStr ++ " seconds",
                timedOut := true }
  | .done out err parsed ec => processChild (pyStrip out) (pyStrip err) parsed ec

/-- One row of `pa3_code_results.csv` (line 317 / 263 / 331):
`[student, test_file, int(ok), message]`. -/
structure Row where
  student : String
  testFile : String
  passed : Nat
  message : String
deriving DecidableEq

/-- One per-student summary entry
`{"total": _, "passed": _, "failed": _, "missing_pa3": _}` (line 246). -/
structure SSummary where
  total : Nat
  passed : Nat
  failed : Nat
  missing : Nat
deriving DecidableEq

/-- The fresh summary inserted by `summary.setdefault` (line 246). -/
def initSummary : SSummary := ⟨0, 0, 0, 0⟩

/-- Lines 318-323: `total += 1` and then exactly one of `passed += 1` /
`failed += 1` according to `ok`. -/
def updateSummary (s : SSummary) (ok : Bool) : SSummary :=
  { s with total := s.total + 1,
           passed := s.passed + (if ok then 1 else 0),
           failed := s.failed + (if ok then 0 else 1) }

/-- One iteration of the missing-module loop (lines 262-265): write the
synthetic row and count it as a failure. -/
def missStep (student : String) (acc : List Row × SSummary) (t : String) :
    List Row × SSummary :=
  (acc.1 ++ [⟨student, t, 0, "pa3.py not found"⟩],
   { acc.2 with total := acc.2.total + 1, failed := acc.2.failed + 1 })

/-- The per-test loop of lines 273-334 for one student whose module was
located: test `idx` is handed to the world (one `subprocess.run`) and its
record becomes a row plus a summary update; an uncaught Python exception
aborts the whole loop (there is no enclosing handler in `main`). -/
def gradeGo (student : String) (world : Nat → ChildBehaviour) (timeoutStr : String) :
    Nat → List String → List Row → SSummary → Except PyErr (List Row × SSummary)
  | _, [], rows, s => Except.ok (rows, s)
  | idx, t :: rest, rows, s =>
    match runOne (world idx) timeoutStr with
    | .error e => Except.error e
    | .ok r =>
      gradeGo student world timeoutStr (idx + 1) rest
        (rows ++ [⟨student, t, if r.ok then 1 else 0, r.message⟩])
        (updateSummary s r.ok)

/-- Lines 246-334 for one student: either the missing-module short-circuit
(lines 261-268, which never consults the world) or the per-test subprocess
loop.  `tests` is the sorted `test_*.py` list, `world idx` the behaviour of
the child launched for test `idx`. -/
def gradeStudent (student : String) (tests : List String) (pa3Path : Option String)
    (world : Nat → ChildBehaviour) (timeoutStr : String) :
    Except PyErr (List Row × SSummary) :=
  match pa3Path with
  | none =>
    let rs := tests.foldl (missStep student) ([], initSummary)
    Except.ok (rs.1, { rs.2 with missing := 1 })
  | some _ => gradeGo student world timeoutStr 0 tests [] initSummary

/-- The argv built at lines 277-286:
`[python_bin, runner, pa3_path, tests_dir, support_dir, test_file, str(1337 + idx)]`. -/
def mkCmd (pythonBin runnerPath pa3Path testsDir supportDir tfile : String)
    (idx : Nat) : List String :=
  [pythonBin, runnerPath, pa3Path, testsDir, supportDir, tfile, toString (1337 + idx)]

/-- Decimal value of a nonempty digit sequence, `none` on anything else. -/
def digitsVal : List Char → Option Nat
  | [] => none
  | l => go l 0
where
  go : List Char → Nat → Option Nat
    | [], acc => some acc
    | c :: rest, acc =>
      if c.isDigit then go rest (acc * 10 + (c.toNat - 48)) else none

/-- Python `int(s)`: strip surrounding whitespace, then an optionally signed
nonempty decimal numeral; anything else raises `ValueError` (= `none`).
(Python additionally tolerates digit-group underscores, which never occur in
this harness's arguments.) -/
def pyInt? (s : String) : Option Int :=
  match stripChars s.data with
  | '-' :: rest => (digitsVal rest).map (fun n => -(n : Int))
  | '+' :: rest => (digitsVal rest).map (fun n => (n : Int))
  | l => (digitsVal l).map (fun n => (n : Int))

/-- Outcome of one execution of untrusted code under a Python
`except Exception` handler: it returned a value, it raised an `Exception`
(caught, with traceback text `tb`), or it raised a `BaseException` outside
the `Exception` hierarchy — `SystemExit` from `sys.exit()`,
`KeyboardInterrupt`, ... — which the handlers at runner lines 101-103,
113-115 and 128-142 do NOT catch, so it escapes `main()` and kills the
process on the spot. -/
inductive PyOutcome (α : Type) where
  | ok (a : α) : PyOutcome α
  | exc (tb : String) : PyOutcome α
  | fatal : PyOutcome α

/-- The environment one runner execution observes, abstracting exactly the
library calls `RUNNER_CODE` makes: its argv; the two `os.path.exists`
probes; for each of the two `load_module_from_path` calls the text the
executed untrusted module itself printed to stdout (`exec_module` runs its
top level in-process, sharing the channel) and the call's outcome; the
`hasattr(test_mod, "TestCase")` probe; and the text printed during
`test_mod.TestCase()` together with the combined outcome of
`result, msg = test_mod.TestCase(); ok = bool(result); msg = str(msg)`
(`.exc tb` = one of those three raised an `Exception`, `.fatal` = a
`BaseException` escaped). -/
structure RunnerEnv where
  argv : List String
  studentPathExists : Bool
  testPathExists : Bool
  loadStudentOut : List String
  loadStudent : PyOutcome Unit
  loadTestOut : List String
  loadTest : PyOutcome Unit
  hasTestCase : Bool
  runTestOut : List String
  runTest : PyOutcome (Bool × String)

/-- The runner process's externally relevant events, in program order: a
`print(json.dumps(v))` by the runner itself on stdout, a raw write to the
same stdout performed by untrusted code it executes in-process, the
`random.seed(n)` call, and the invocation of the test entry point. -/
inductive REvent where
  | emit (v : Json) : REvent
  | rawOut (s : String) : REvent
  | seedRandom (n : Int) : REvent
  | callTestCase : REvent

/-- The stdout writes untrusted code performed during one call, as events. -/
def rawOuts (outs : List String) : List REvent := outs.map REvent.rawOut

/-- The traceback text captured by `traceback.format_exc()` when the
`AttributeError` raised at runner line 130 is caught two lines below; its
final line is the exception's message.  Only that message text matters to
any claim, so the surrounding frame lines are elided. -/
def attrTraceback : String :=
  "AttributeError: TestCase() function not found in test file"

/-- `RUNNER_CODE`'s `main()` (runner lines 70-143), as the ordered list of
the process's observable events.  The argument-count guard, the
`int(sys.argv[5])` conversion (uncaught: a `ValueError` kills the process
before anything is printed, hence the empty trace), the two path probes, the
two module loads, the `random.seed`, the `hasattr` guard and the entry-point
invocation appear in source order.  A load or `TestCase()` call first
contributes whatever the untrusted code printed to stdout; if its outcome is
a caught `Exception` the runner prints one failure record, and if a
`BaseException` escaped (`.fatal`) the process dies there — the trace ends
with no record.  Every handled failure prints exactly one JSON record. -/
def runnerMain (env : RunnerEnv) : List REvent :=
  if env.argv.length < 6 then
    [.emit (.obj [("ok", .bool false), ("message", .str "bad_args"),
                  ("error", .str "Expected 5 arguments")])]
  else
    match pyInt? (env.argv.getD 5 "") with
    | none => []
    | some seed =>
      if !env.studentPathExists then
        [.emit (.obj [("ok", .bool false), ("message", .str "Student pa3.py not found"),
                      ("error", .str ("Path does not exist: " ++ env.argv.getD 1 ""))])]
      else if !env.testPathExists then
        [.emit (.obj [("ok", .bool false), ("message", .str "Test file not found"),
                      ("error", .str ("Path does not exist: " ++ env.argv.getD 4 ""))])]
      else
        rawOuts env.loadStudentOut ++
        match env.loadStudent with
        | .fatal => []
        | .exc tb =>
          [.emit (.obj [("ok", .bool false),
                        ("message", .str "Failed to load student's pa3.py"),
                        ("error", .str tb)])]
        | .ok _ =>
          rawOuts env.loadTestOut ++
          match env.loadTest with
          | .fatal => []
          | .exc tb =>
            [.emit (.obj [("ok", .bool false),
                          ("message", .str "Failed to load test file"),
                          ("error", .str tb)])]
          | .ok _ =>
            .seedRandom seed ::
            (if !env.hasTestCase then
              [.emit (.obj [("ok", .bool false),
                            ("message", .str "Exception during TestCase() execution"),
                            ("error", .str attrTraceback)])]
            else
              .callTestCase ::
              (rawOuts env.runTestOut ++
               match env.runTest with
               | .fatal => []
               | .ok (ok, msg) =>
                 [.emit (.obj [("ok", .bool ok), ("message", .str msg)])]
               | .exc tb =>
                 [.emit (.obj [("ok", .bool false),
                               ("message", .str "Exception during TestCase() execution"),
                               ("error", .str tb)])]))

/-- Number of Result Protocol values the runner itself prints to stdout. -/
def countEmits : List REvent → Nat
  | [] => 0
  | .emit _ :: r => countEmits r + 1
  | _ :: r => countEmits r

/-- Number of raw stdout writes performed by executed untrusted code. -/
def countRaw : List REvent → Nat
  | [] => 0
  | .rawOut _ :: r => countRaw r + 1
  | _ :: r => countRaw r

/-- Total writes landing on the primary channel: protocol values printed by
the runner plus raw text printed by untrusted code. -/
def countChannel : List REvent → Nat
  | [] => 0
  | .emit _ :: r => countChannel r + 1
  | .rawOut _ :: r => countChannel r + 1
  | _ :: r => countChannel r

/-- The `message` fields of the protocol values a runner trace emits. -/
def emittedMessages : List REvent → List String
  | [] => []
  | .emit (.obj kvs) :: r => pyStr ((kvs.lookup "message").getD (.str "")) :: emittedMessages r
  | .emit _ :: r => "" :: emittedMessages r
  | _ :: r => emittedMessages r

/-- A directory subtree: its name, the plain files directly inside it, and
its subdirectories in the order the filesystem enumerates them (`os.walk`'s
order; deterministic for a fixed filesystem state). -/
inductive FSTree where
  | node (dname : String) (files : List String) (subdirs : List FSTree) : FSTree

/-- Name of the directory at the root of the subtree. -/
def FSTree.dnameOf : FSTree → String
  | .node n _ _ => n

/-- Files directly inside the root of the subtree. -/
def FSTree.filesOf : FSTree → List String
  | .node _ fs _ => fs

/-- `os.path.join` on POSIX. -/
def pjoin (a b : String) : String := a ++ "/" ++ b

mutual

/-- Top-down `os.walk` restricted to the `(root, files)` components the
locator reads: the root itself first, then each subtree depth-first. -/
def walkFrom (root : String) : FSTree → List (String × List String)
  | .node _ files subs => (root, files) :: walkDirs root subs

/-- Walk each subtree of `root` in enumeration order. -/
def walkDirs (root : String) : List FSTree → List (String × List String)
  | [] => []
  | t :: ts => walkFrom (pjoin root t.dnameOf) t ++ walkDirs root ts

end

/-- `needle in hay` on Python strings: substring containment. -/
def infixHit (n : List Char) : List Char → Bool
  | [] => n.isEmpty
  | c :: rest => n.isPrefixOf (c :: rest) || infixHit n rest

/-- Python's `tag in root` substring test, lifted to `String`. -/
def strContains (needle hay : String) : Bool := infixHit needle.toList hay.toList

/-- The tuple at line 255: `(".venv", "venv", "__pycache__")`. -/
def noiseTags : List String := [".venv", "venv", "__pycache__"]

/-- Line 255's test `any(tag in root for tag in (".venv", "venv",
"__pycache__"))`: some tag occurs as a substring of the whole root path. -/
def hasTag (root : String) : Bool := noiseTags.any (fun tag => strContains tag root)

/-- The walk loop of lines 254-259: `continue` past tagged roots, stop at
the first remaining root whose file list contains `pa3.py`. -/
def firstMatch (target : String) : List (String × List String) → Option String
  | [] => none
  | (root, files) :: rest =>
    if hasTag root then firstMatch target rest
    else if files.contains target then some (pjoin root target)
    else firstMatch target rest

/-- The locator of lines 248-259: the direct `student_dir / "pa3.py"` probe
first, otherwise the `os.walk` scan. -/
def findModule (target root : String) (t : FSTree) : Option String :=
  if t.filesOf.contains target then some (pjoin root target)
  else firstMatch target (walkFrom root t)

mutual

/-- Walk of the subtree as §4.4 of the spec words it, pruning — by exact
name — every directory "whose name matches a fixed denylist of
environment/cache directory names".  Comparison definition for the
refinement claim about the locator; it deliberately follows the spec's
sentence, not the source. -/
def walkFromSpec (root : String) : FSTree → List (String × List String)
  | .node _ files subs => (root, files) :: walkDirsSpec root subs

/-- Spec-worded walk over the subdirectory list, skipping denylisted names. -/
def walkDirsSpec (root : String) : List FSTree → List (String × List String)
  | [] => []
  | t :: ts =>
    (if noiseTags.contains t.dnameOf then [] else walkFromSpec (pjoin root t.dnameOf) t)
      ++ walkDirsSpec root ts

end

/-- First walked directory containing the target, with no further skipping
(the spec-worded walk already pruned the denylisted directories). -/
def firstHit (target : String) : List (String × List String) → Option String
  | [] => none
  | (root, files) :: rest =>
    if files.contains target then some (pjoin root target) else firstHit target rest

/-- The locator as §4.4 of the spec words it: direct check, then the
name-pruned depth-first walk, first match wins.  Comparison definition for
the claim that the code skips "any directory whose name matches the fixed
denylist — and only those directories". -/
def findModuleSpec (target root : String) (t : FSTree) : Option String :=
  if t.filesOf.contains target then some (pjoin root target)
  else firstHit target (walkFromSpec root t)

/-- The source locator restated spec-style (direct probe, then: among the
walked entries, drop every entry whose full root path contains a noise tag
as a substring, and take the first whose files hold the target).  Used to
state the amended locator claim as a genuine refinement equality. -/
def findModuleAlt (target root : String) (t : FSTree) : Option String :=
  if t.filesOf.contains target then some (pjoin root target)
  else
    ((walkFrom root t).filter (fun e => !hasTag e.1 && e.2.contains target)).head?.map
      (fun e => pjoin e.1 target)

/-- The percent computation of line 344:
`(passed / total * 100.0) if total else 0.0`, over exact rationals. -/
def pctOf (total passed : Nat) : Rat :=
  if total ≠ 0 then (passed : Rat) / (total : Rat) * 100 else 0

/-- The message of a supervisor outcome, empty when the loop raised. -/
def msgOfResult : Except PyErr ResultRecord → String
  | .ok r => r.message
  | .error _ => ""

/-- A string with a nonempty left part is nonempty. -/
theorem append_ne_empty_of_left (a b : String) (h : a ≠ "") : a ++ b ≠ "" := by
  intro he
  apply h
  have hd := congrArg String.data he
  rw [String.data_append] at hd
  have hnil : a.data = [] := (List.append_eq_nil.mp hd).1
  cases a
  simp_all

/-- C1: the supervising loop is NOT exception-free for every child
behaviour.  A child whose entire stdout is `42` — valid JSON that is not an
object, achievable by a submission that prints and exits during import —
makes `data.get("ok", False)` raise `AttributeError` (only
`json.JSONDecodeError` and `subprocess.TimeoutExpired` are caught), and the
error aborts the per-student loop, so the remaining (student, test) pairs of
the run get no result row at all. -/
theorem supervisor_raises_on_nonobject_json :
    runOne (.done "42" "" (some (.num 42)) 0) "20.0" =
      Except.error PyErr.attributeError ∧
    gradeStudent "bob" ["test_1.py", "test_2.py"] (some "subs/bob/pa3.py")
      (fun _ => .done "42" "" (some (.num 42)) 0) "20.0" =
      Except.error PyErr.attributeError :=
  ⟨rfl, rfl⟩

/-- C2 counterexample, three failure modes of the claim at concrete inputs:
(i) with six argv entries and a non-integer seed argument,
`int(sys.argv[5])` raises an uncaught `ValueError` before any record is
printed — zero Result Protocol values; (ii) even with a valid seed, a
`SystemExit` raised by the student module during load escapes the
`except Exception` handlers and kills the process — zero values; (iii) a
student module that prints text during load puts a second write on the
primary channel beside the single protocol value, so the runner does not
write "nothing else" to that channel. -/
theorem runner_zero_output_on_nonint_seed :
    countEmits (runnerMain
      ⟨["runner.py", "a", "b", "c", "d", "x"], true, true, [], .ok (), [], .ok (), true, [],
        .ok (true, "ok")⟩) = 0 ∧
    countEmits (runnerMain
      ⟨["runner.py", "a", "b", "c", "d", "1337"], true, true, [], .fatal, [], .ok (), true, [],
        .ok (true, "ok")⟩) = 0 ∧
    (countEmits (runnerMain
      ⟨["runner.py", "a", "b", "c", "d", "1337"], true, true, ["noise"], .ok (), [], .ok (),
        true, [], .ok (true, "ok")⟩) = 1 ∧
     countChannel (runnerMain
      ⟨["runner.py", "a", "b", "c", "d", "1337"], true, true, ["noise"], .ok (), [], .ok (),
        true, [], .ok (true, "ok")⟩) = 2) :=
  ⟨rfl, rfl, rfl, rfl⟩

/-- C7 counterexample: the walk-skip test is `tag in root` — substring
containment over the whole path — not a match of the directory's name
against the denylist.  A student whose only `pa3.py` lives under a directory
named `a_venv` (a name not in the denylist `.venv`/`venv`/`__pycache__`) is
therefore reported missing by the code, while the spec-worded locator, which
skips only exactly-named denylist directories, finds the file. -/
theorem locator_skips_by_substring_counterexample :
    findModule "pa3.py" "subs/bob" (.node "bob" [] [.node "a_venv" ["pa3.py"] []]) =
      none ∧
    findModuleSpec "pa3.py" "subs/bob" (.node "bob" [] [.node "a_venv" ["pa3.py"] []]) =
      some "subs/bob/a_venv/pa3.py" :=
  ⟨rfl, rfl⟩

/-- The missing-module fold of lines 262-265 in closed form. -/
theorem missFold_closed (student : String) (tests : List String) :
    ∀ (rows : List Row) (s : SSummary),
    tests.foldl (missStep student) (rows, s) =
      (rows ++ tests.map (fun t => ⟨student, t, 0, "pa3.py not found"⟩),
       ⟨s.total + tests.length, s.passed, s.failed + tests.length, s.missing⟩) := by
  induction tests with
  | nil => intro rows s; simp [SSummary.mk.injEq]
  | cons t rest ih =>
    intro rows s
    rw [List.foldl_cons]
    show rest.foldl (missStep student)
      (rows ++ [⟨student, t, 0, "pa3.py not found"⟩],
       ⟨s.total + 1, s.passed, s.failed + 1, s.missing⟩) = _
    rw [ih]
    simp [SSummary.mk.injEq]
    constructor
    · omega
    · omega

/-- The per-test loop in closed form when every child times out. -/
theorem gradeGo_all_timeout (student : String) (T : String) (tests : List String) :
    ∀ (idx : Nat) (rows : List Row) (s : SSummary),
    gradeGo student (fun _ => ChildBehaviour.timeout) T idx tests rows s =
      Except.ok
        (rows ++ tests.map (fun t => ⟨student, t, 0, "Test timed out after " ++ T ++ " seconds"⟩),
         ⟨s.total + tests.length, s.passed, s.failed + tests.length, s.missing⟩) := by
  induction tests with
  | nil => intro idx rows s; simp [gradeGo, SSummary.mk.injEq]
  | cons t rest ih =>
    intro idx rows s
    show gradeGo student (fun _ => ChildBehaviour.timeout) T (idx + 1) rest
          (rows ++ [⟨student, t, 0, "Test timed out after " ++ T ++ " seconds"⟩])
          (updateSummary s false) = _
    rw [ih]
    simp [updateSummary, SSummary.mk.injEq]
    constructor
    · omega
    · omega

/-- The per-test loop preserves `total = passed + failed`. -/
theorem gradeGo_invariant (student : String) (world : Nat → ChildBehaviour) (T : String)
    (tests : List String) :
    ∀ (idx : Nat) (rows : List Row) (s : SSummary),
    s.total = s.passed + s.failed →
    ∀ (rows' : List Row) (s' : SSummary),
    gradeGo student world T idx tests rows s = Except.ok (rows', s') →
    s'.total = s'.passed + s'.failed := by
  induction tests with
  | nil =>
    intro idx rows s hs rows' s' h
    rw [gradeGo] at h
    cases h
    exact hs
  | cons t rest ih =>
    intro idx rows s hs rows' s' h
    rw [gradeGo] at h
    cases hr : runOne (world idx) T with
    | error e => rw [hr] at h; cases h
    | ok r =>
      rw [hr] at h
      refine ih (idx + 1) _ (updateSummary s r.ok) ?_ rows' s' h
      cases r.ok <;> simp [updateSummary] <;> omega

/-- C4: a student whose module path resolved to `None` gets one synthetic
`ok=false` row per test case with message `pa3.py not found`, the summary
ends with `total = failed = len(tests)`, `passed = 0` and the
`missing_pa3` flag set — and the world (the subprocess launcher) is never
consulted: the result is the same for every world. -/
theorem missing_module_short_circuit (student T : String) (tests : List String)
    (world world' : Nat → ChildBehaviour) :
    gradeStudent student tests none world T =
      Except.ok (tests.map (fun t => ⟨student, t, 0, "pa3.py not found"⟩),
                 ⟨tests.length, 0, tests.length, 1⟩) ∧
    gradeStudent student tests none world T = gradeStudent student tests none world' T := by
  constructor
  · simp only [gradeStudent, missFold_closed student tests [] initSummary]
    simp [initSummary, SSummary.mk.injEq]
  · rfl

/-- C5: on expiry of the wall-clock budget the supervisor's record is a
failure with the `timed_out` branch marked and the message naming the
configured timeout (`f"Test timed out after {args.timeout} seconds"`), and
the loop keeps going: even a student whose every child times out still gets
one row per test case and a complete summary. -/
theorem timeout_record_and_continuation (student p T : String) (tests : List String) :
    runOne ChildBehaviour.timeout T =
      Except.ok ⟨false, "Test timed out after " ++ T ++ " seconds", true⟩ ∧
    gradeStudent student tests (some p) (fun _ => ChildBehaviour.timeout) T =
      Except.ok
        (tests.map (fun t => ⟨student, t, 0, "Test timed out after " ++ T ++ " seconds"⟩),
         ⟨tests.length, 0, tests.length, 0⟩) := by
  constructor
  · rfl
  · show gradeGo student (fun _ => ChildBehaviour.timeout) T 0 tests [] initSummary = _
    rw [gradeGo_all_timeout]
    simp [initSummary, SSummary.mk.injEq]

/-- C10: each recorded result bumps `total` by one and exactly one of
`passed`/`failed` by one, any successfully completed per-student run ends
with `total = passed + failed` (missing-module, timeout and normal paths
alike), and the summary writer's percentage uses the `if total` guard: it is
`0` at `total = 0` and `passed / total * 100` otherwise, so it never divides
by zero. -/
theorem summary_invariant_and_pct_guard :
    (∀ (s : SSummary) (ok : Bool),
       (updateSummary s ok).total = s.total + 1 ∧
       (updateSummary s ok).passed + (updateSummary s ok).failed
         = s.passed + s.failed + 1) ∧
    (∀ (student T : String) (tests : List String) (p : Option String)
       (world : Nat → ChildBehaviour) (rows : List Row) (s : SSummary),
       gradeStudent student tests p world T = Except.ok (rows, s) →
       s.total = s.passed + s.failed) ∧
    (∀ passed : Nat, pctOf 0 passed = 0) ∧
    (∀ total passed : Nat, total ≠ 0 →
       pctOf total passed = (passed : Rat) / (total : Rat) * 100) := by
  refine ⟨?_, ?_, ?_, ?_⟩
  · intro s ok
    cases ok <;> simp [updateSummary] <;> omega
  · intro student T tests p world rows s h
    match p with
    | none =>
      simp only [gradeStudent, missFold_closed student tests [] initSummary] at h
      injection h with h1
      injection h1 with hrows hs
      subst hs
      simp [initSummary]
    | some _ =>
      rw [gradeStudent] at h
      exact gradeGo_invariant student world T tests 0 [] initSummary rfl rows s h
  · intro passed; simp [pctOf]
  · intro total passed h; simp [pctOf, h]

/-- Closed instance of the summary invariants: one concrete single-test run
ending in `total = passed + failed`, plus the percentage guard and formula
at concrete totals. -/
theorem summary_invariant_and_pct_guard_witness :
    (⟨1, 0, 1, 1⟩ : SSummary).total = (⟨1, 0, 1, 1⟩ : SSummary).passed +
      (⟨1, 0, 1, 1⟩ : SSummary).failed ∧
    pctOf 0 7 = 0 ∧ pctOf 2 1 = (1 : Rat) / 2 * 100 := by
  refine ⟨?_, ?_, ?_⟩
  · exact summary_invariant_and_pct_guard.2.1 "a" "20.0" ["t1"] none
      (fun _ => ChildBehaviour.timeout) [⟨"a", "t1", 0, "pa3.py not found"⟩] ⟨1, 0, 1, 1⟩ rfl
  · exact summary_invariant_and_pct_guard.2.2.1 7
  · exact summary_invariant_and_pct_guard.2.2.2 2 1 (by decide)

/-- Prepended raw writes do not change the runner's own emission count. -/
theorem countEmits_rawOuts (outs : List String) (r : List REvent) :
    countEmits (rawOuts outs ++ r) = countEmits r := by
  induction outs with
  | nil => rfl
  | cons o rest ih => simpa [rawOuts, countEmits] using ih

/-- Channel writes split into the runner's protocol emissions and the raw
writes of executed untrusted code. -/
theorem countChannel_split (l : List REvent) :
    countChannel l = countEmits l + countRaw l := by
  induction l with
  | nil => rfl
  | cons e r ih => cases e <;> simp [countChannel, countEmits, countRaw, ih] <;> omega

/-- C2 (amended): whenever fewer than six argv entries are present (the
bad-args record path), or the seed argument parses as an integer AND no
untrusted code raises a `BaseException` outside the `Exception` hierarchy
(e.g. `SystemExit`) during the student-module load, the test-module load or
the entry-point call — all of which hold for every command line the
supervisor builds against submissions that do not call `sys.exit` — the
runner itself prints exactly one Result Protocol value to its primary
channel, on every path; every further write on that channel is raw text
printed by the untrusted code it executes, never a second protocol value. -/
theorem runner_emits_exactly_one_value (env : RunnerEnv)
    (h : env.argv.length < 6 ∨
      ((pyInt? (env.argv.getD 5 "")).isSome = true ∧
       env.loadStudent ≠ PyOutcome.fatal ∧ env.loadTest ≠ PyOutcome.fatal ∧
       env.runTest ≠ PyOutcome.fatal)) :
    countEmits (runnerMain env) = 1 ∧
    countChannel (runnerMain env) = countRaw (runnerMain env) + 1 := by
  have h1 : countEmits (runnerMain env) = 1 := by
    obtain ⟨argv, spe, tpe, lso, ls, lto, lt, htc, rto, rt⟩ := env
    by_cases hlen : argv.length < 6
    · simp [runnerMain, hlen, countEmits]
    · rcases h with h | ⟨hsome, hls, hlt, hrt⟩
      · exact absurd h hlen
      obtain ⟨n, hn⟩ := Option.isSome_iff_exists.mp hsome
      cases spe <;> cases tpe <;> cases htc <;>
        rcases ls with u1 | tb1 | _ <;> rcases lt with u2 | tb2 | _ <;>
        rcases rt with p | tb3 | _ <;>
        first
          | exact absurd rfl hls
          | exact absurd rfl hlt
          | exact absurd rfl hrt
          | (simp only [runnerMain]; rw [if_neg hlen, hn];
             simp [countEmits, countEmits_rawOuts])
  refine ⟨h1, ?_⟩
  rw [countChannel_split, h1]
  omega

/-- Closed instance of the single-emission theorem on the bad-args path. -/
theorem runner_emits_exactly_one_value_witness :
    countEmits (runnerMain
      ⟨["runner.py"], true, true, [], .ok (), [], .ok (), true, [],
        PyOutcome.ok (true, "ok")⟩) = 1 ∧
    countChannel (runnerMain
      ⟨["runner.py"], true, true, [], .ok (), [], .ok (), true, [],
        PyOutcome.ok (true, "ok")⟩) =
      countRaw (runnerMain
        ⟨["runner.py"], true, true, [], .ok (), [], .ok (), true, [],
          PyOutcome.ok (true, "ok")⟩) + 1 :=
  runner_emits_exactly_one_value
    ⟨["runner.py"], true, true, [], .ok (), [], .ok (), true, [], PyOutcome.ok (true, "ok")⟩
    (Or.inl (by decide))

/-- C3 (amended): unparseable nonempty child stdout yields a synthetic
`ok=false` record whose message is `Invalid JSON output` and whose
diagnostic detail carries the first 500 characters of each of the stripped
primary- and secondary-channel texts (plus the exit-code annotation when the
exit code is non-zero); the record's channel text is capped at 500
characters per channel, not unbounded. -/
theorem parse_failure_synthetic_record (out err : String) (ec : Int) (T : String)
    (h : ¬ pyStrip out = "") :
    runOne (.done out err none ec) T =
      Except.ok ⟨false,
        "Invalid JSON output" ++
          (("\n\nERROR:\n" ++
            ("STDOUT: " ++ strTake (pyStrip out) 500 ++ "\nSTDERR: " ++
              strTake (pyStrip err) 500)) ++
           (if ec ≠ 0 then exitPiece ec else "") ++ ""),
        false⟩ := by
  have hne : ("STDOUT: " ++ strTake (pyStrip out) 500 ++ "\nSTDERR: " ++
      strTake (pyStrip err) 500) ≠ "" := by
    apply append_ne_empty_of_left
    apply append_ne_empty_of_left
    apply append_ne_empty_of_left
    decide
  show processData (childData (pyStrip out) (pyStrip err) none) (pyStrip err) ec = _
  rw [childData, if_neg h]
  simp [processData, dictGet, List.lookup, pyTruthy, pyStr, hne]

/-- Closed instance of the synthetic-record theorem at a concrete garbage
stdout. -/
theorem parse_failure_synthetic_record_witness :
    runOne (.done "garbage" "" none 0) "20.0" =
      Except.ok ⟨false,
        "Invalid JSON output" ++
          (("\n\nERROR:\n" ++
            ("STDOUT: " ++ strTake (pyStrip "garbage") 500 ++ "\nSTDERR: " ++
              strTake (pyStrip "") 500)) ++
           (if (0 : Int) ≠ 0 then exitPiece 0 else "") ++ ""),
        false⟩ :=
  parse_failure_synthetic_record "garbage" "" 0 "20.0" (by decide)

/-- C6: the supervisor's command line carries the seed `str(1337 + idx)` for
test index `idx` — the same for every student and every run — and a runner
whose seed argument parses to `n` performs `random.seed(n)` immediately
before invoking the test entry point, whenever it reaches the invocation. -/
theorem seed_derivation_and_runner_seeding :
    (∀ (pb rp pp td sd tf : String) (idx : Nat),
       (mkCmd pb rp pp td sd tf idx).getD 6 "" = toString (1337 + idx)) ∧
    (∀ (a0 a1 a2 a3 a4 s : String) (n : Int) (rto : List String)
       (rt : PyOutcome (Bool × String)),
       pyInt? s = some n →
       ∃ rest, runnerMain
           ⟨[a0, a1, a2, a3, a4, s], true, true, [], .ok (), [], .ok (), true, rto, rt⟩ =
         REvent.seedRandom n :: REvent.callTestCase :: rest) := by
  constructor
  · intro pb rp pp td sd tf idx
    rfl
  · intro a0 a1 a2 a3 a4 s n rto rt h
    rcases rt with ⟨ok, msg⟩ | tb | _
    · exact ⟨rawOuts rto ++ [REvent.emit (.obj [("ok", .bool ok), ("message", .str msg)])],
        by simp [runnerMain, h, rawOuts]⟩
    · exact ⟨rawOuts rto ++ [REvent.emit (.obj [("ok", .bool false),
        ("message", .str "Exception during TestCase() execution"), ("error", .str tb)])],
        by simp [runnerMain, h, rawOuts]⟩
    · exact ⟨rawOuts rto ++ [], by simp [runnerMain, h, rawOuts]⟩

/-- Closed instance of seed derivation and seeding: test index 2 gets seed
string `"1339"`, and a runner handed seed `"1339"` seeds with `1339` right
before calling the entry point. -/
theorem seed_derivation_and_runner_seeding_witness :
    (mkCmd "python" "runner.py" "subs/a/pa3.py" "tests" "supp" "tests/test_1.py" 2).getD 6 ""
      = toString (1337 + 2) ∧
    (runnerMain ⟨["python", "runner.py", "m", "t", "s", "1339"], true, true, [], .ok (), [],
        .ok (), true, [], PyOutcome.ok (true, "ok")⟩).take 2 =
      [REvent.seedRandom 1339, REvent.callTestCase] := by
  constructor
  · exact seed_derivation_and_runner_seeding.1 "python" "runner.py" "subs/a/pa3.py" "tests"
      "supp" "tests/test_1.py" 2
  · obtain ⟨rest, hr⟩ := seed_derivation_and_runner_seeding.2 "python" "runner.py" "m" "t" "s"
      "1339" 1339 [] (PyOutcome.ok (true, "ok")) (by decide)
    rw [hr]
    rfl

/-- C8: when the child exits non-zero but its stdout still parsed as a
protocol dict with boolean `ok` and string `message` — the optional `error`
field free to be present or absent — the recorded `ok` is the parsed one,
not overridden to failure, and the exit code is appended to the recorded
message as contextual detail, after the `ERROR` block when the value carried
a truthy `error` field and before the stderr annotation otherwise. -/
theorem nonzero_exit_with_valid_protocol (out err : String) (kvs : List (String × Json))
    (b : Bool) (m : String) (ec : Int) (T : String)
    (hout : ¬ pyStrip out = "")
    (hok : kvs.lookup "ok" = some (.bool b))
    (hmsg : kvs.lookup "message" = some (.str m))
    (hec : ec ≠ 0) :
    runOne (.done out err (some (.obj kvs)) ec) T =
      Except.ok ⟨b,
        m ++ ((if pyTruthy ((kvs.lookup "error").getD (Json.str "")) = true then
                 "\n\nERROR:\n" ++ pyStr ((kvs.lookup "error").getD (Json.str "")) else "") ++
              exitPiece ec ++
              (if pyStrip err ≠ "" ∧
                  pyTruthy ((kvs.lookup "error").getD (Json.str "")) = false then
                 "\n\nSTDERR:\n" ++ pyStrip err else "")),
        false⟩ := by
  show processData (childData (pyStrip out) (pyStrip err) (some (.obj kvs))) (pyStrip err) ec
    = _
  rw [childData, if_neg hout]
  simp [processData, dictGet, hok, hmsg, hec, pyTruthy]

/-- Closed instance of the non-zero-exit theorem: a protocol value carrying
an `error` field and parsed `ok=true` survives exit code 1, which lands in
the message after the `ERROR` block. -/
theorem nonzero_exit_with_valid_protocol_witness :
    runOne (.done "x" "boom" (some (.obj [("ok", Json.bool true), ("message", Json.str "yay"),
        ("error", Json.str "tb")])) 1) "20.0" =
      Except.ok ⟨true, "yay\n\nERROR:\ntb\n\n(subprocess exit code: 1)", false⟩ := by
  have h := nonzero_exit_with_valid_protocol "x" "boom"
    [("ok", Json.bool true), ("message", Json.str "yay"), ("error", Json.str "tb")]
    true "yay" 1 "20.0" (by decide) rfl rfl (by decide)
  rw [h]
  rfl

/-- C9 (amended): a test module without the `TestCase` entry point makes the
runner emit — rather than propagate — a single `ok=false` protocol record
whose message is `Exception during TestCase() execution` and whose
diagnostic detail names the missing entry point (`TestCase() function not
found in test file`); the entry point is never invoked. -/
theorem missing_entrypoint_record (a0 a1 a2 a3 a4 s : String) (n : Int)
    (rto : List String) (rt : PyOutcome (Bool × String)) (h : pyInt? s = some n) :
    runnerMain
      ⟨[a0, a1, a2, a3, a4, s], true, true, [], .ok (), [], .ok (), false, rto, rt⟩ =
      [REvent.seedRandom n,
       REvent.emit (.obj [("ok", .bool false),
         ("message", .str "Exception during TestCase() execution"),
         ("error", .str attrTraceback)])] ∧
    strContains "TestCase() function not found in test file" attrTraceback = true := by
  constructor
  · simp [runnerMain, h, rawOuts]
  · decide

/-- Closed instance of the missing-entry-point record. -/
theorem missing_entrypoint_record_witness :
    runnerMain ⟨["python", "runner.py", "m", "t", "s", "1337"], true, true, [], .ok (), [],
        .ok (), false, [], PyOutcome.ok (true, "ok")⟩ =
      [REvent.seedRandom 1337,
       REvent.emit (.obj [("ok", .bool false),
         ("message", .str "Exception during TestCase() execution"),
         ("error", .str attrTraceback)])] :=
  (missing_entrypoint_record "python" "runner.py" "m" "t" "s" "1337" 1337 []
    (PyOutcome.ok (true, "ok")) (by decide)).1

/-- C9 counterexample: on the missing-entry-point path the emitted message
is `Exception during TestCase() execution`; the message `entry point not
found` named by the claim is never emitted. -/
theorem missing_entrypoint_message_counterexample :
    emittedMessages (runnerMain ⟨["runner.py", "a", "b", "c", "d", "1337"], true, true, [],
      .ok (), [], .ok (), false, [], PyOutcome.ok (true, "ok")⟩) =
      ["Exception during TestCase() execution"] ∧
    (emittedMessages (runnerMain ⟨["runner.py", "a", "b", "c", "d", "1337"], true, true, [],
      .ok (), [], .ok (), false, [], PyOutcome.ok (true, "ok")⟩)).contains
        "entry point not found" = false :=
  ⟨rfl, rfl⟩

/-- The source walk loop equals: drop the tagged entries, first remaining
entry holding the target wins. -/
theorem firstMatch_eq_filter_head (target : String) (l : List (String × List String)) :
    firstMatch target l =
      ((l.filter (fun e => !hasTag e.1 && e.2.contains target)).head?).map
        (fun e => pjoin e.1 target) := by
  induction l with
  | nil => rfl
  | cons e rest ih =>
    obtain ⟨root, files⟩ := e
    cases h1 : hasTag root <;> by_cases h2 : target ∈ files <;>
      simp [firstMatch, h1, h2, List.filter_cons, ih]

/-- C7 (amended): the locator probes `student_dir/pa3.py` directly first;
only if absent does it scan the walk of the subtree, skipping every entry
whose full directory path contains `.venv`, `venv` or `__pycache__` as a
substring (not merely directories bearing exactly those names), and takes
the first remaining entry containing the target in traversal order; `none`
(missing) when no such entry exists. -/
theorem locator_walk_characterization (target root : String) (t : FSTree) :
    findModule target root t = findModuleAlt target root t := by
  rw [findModule, findModuleAlt, firstMatch_eq_filter_head]

set_option maxRecDepth 100000 in
/-- C3 counterexample: the synthetic record for unparseable child stdout
does NOT carry the raw primary-channel text unbounded — the source slices
both channels to 500 characters (`out[:500]`, `err[:500]`) before storing
them in the record, so a 501-character garbage stdout never appears in full
in the recorded diagnostic text. -/
theorem parse_failure_detail_truncated :
    strContains (String.mk (List.replicate 501 'a'))
      (msgOfResult (runOne (.done (String.mk (List.replicate 501 'a')) "" none 0) "20.0"))
      = false := by
  decide

end Grading
